import Mathlib

/-!
Verification development for the PNG-to-JPEG batch converter
(`png2jpg.py`, `png2jpg_gui.py`).

The Python sources are shallowly embedded: string and path manipulation
follows the semantics of the Python standard library functions the code
calls (`str.split`, `str.strip`, `int`, `pathlib.PurePath.suffix` /
`with_suffix`, `os.path.basename` / `dirname`), the external image
library (PIL) is modelled by its documented per-pixel behaviour for the
operations the code uses (`Image.new`, `convert`, `split`, `paste` with
an 8-bit mask, `save`), and the filesystem and per-file conversion
outcomes are supplied as explicit environments.
-/

namespace Png2Jpg

/-! Section: Python string primitives used by the sources -/

/-- The whitespace characters stripped by Python's `str.strip()` (ASCII
subset; the sources only ever strip ASCII input). -/
def isPySpace (c : Char) : Bool :=
  c == (' ') || c == ('\t') || c == ('\n') || c == ('\r') || c == ('\x0b') || c == ('\x0c')

/-- Python `str.strip()`: drop leading and trailing whitespace. -/
def pyStrip (s : String) : String :=
  String.mk (((s.toList.dropWhile isPySpace).reverse.dropWhile isPySpace).reverse)

/-- Helper for `pySplitComma`: accumulates the current field (reversed). -/
def splitCommaAux : List Char → List Char → List String
  | [], cur => [String.mk cur.reverse]
  | c :: rest, cur =>
      if c == (',') then String.mk cur.reverse :: splitCommaAux rest []
      else splitCommaAux rest (c :: cur)

/-- Python `s.split(",")`: split at every comma, keeping empty fields
(`"".split(",") == [""]`). -/
def pySplitComma (s : String) : List String :=
  splitCommaAux s.toList []

/-- Numeric value of an ASCII digit. -/
def digitVal (c : Char) : Nat :=
  c.toNat - 48

/-- Digits of a Python integer literal after the first digit: digits with
single underscores allowed between digits (`int("1_0") == 10`,
`int("1__0")` and trailing `_` fail). -/
def pyDigits : List Char → Nat → Option Nat
  | [], acc => some acc
  | ['_'], _ => none
  | '_' :: c :: rest, acc =>
      if c.isDigit then pyDigits rest (acc * 10 + digitVal c) else none
  | c :: rest, acc =>
      if c.isDigit then pyDigits rest (acc * 10 + digitVal c) else none

/-- A nonempty digit string (first character must be a digit). -/
def pyUnsigned : List Char → Option Nat
  | [] => none
  | c :: rest => if c.isDigit then pyDigits rest (digitVal c) else none

/-- Python `int(s)` on a string: strip whitespace, optional sign, then a
digit string (with underscore grouping). Returns `none` where Python
raises `ValueError`. -/
def pyInt (s : String) : Option Int :=
  match (pyStrip s).toList with
  | '+' :: rest => (pyUnsigned rest).map Int.ofNat
  | '-' :: rest => (pyUnsigned rest).map (fun n => -(n : Int))
  | cs => (pyUnsigned cs).map Int.ofNat

/-! Section: Python path primitives used by the sources -/

/-- Index of the last `.` in a list of characters, if any. -/
def rfindDotAux : List Char → Nat → Option Nat → Option Nat
  | [], _, best => best
  | c :: rest, i, best =>
      rfindDotAux rest (i + 1) (if c == ('.') then some i else best)

/-- Index of the last `.` in a string (Python `name.rfind('.')`, with
`none` for "not found"). -/
def rfindDot (s : String) : Option Nat :=
  rfindDotAux s.toList 0 none

/-- Semantics of `pathlib.PurePath.suffix` on a file name: the part from the last dot,
unless the dot is the first or the last character. -/
def pySuffix (name : String) : String :=
  match rfindDot name with
  | some i =>
      if 0 < i ∧ i < name.toList.length - 1 then String.mk (name.toList.drop i) else ""
  | none => ""

/-- Semantics of `pathlib.PurePath.with_suffix(suf)` applied to a file name: replace
the suffix (or append `suf` when there is none). -/
def pyWithSuffix (name suf : String) : String :=
  let old := pySuffix name
  if old == "" then name ++ suf
  else String.mk (name.toList.take (name.toList.length - old.toList.length)) ++ suf

/-- ASCII lowercase of a string (Python `str.lower()` on ASCII input). -/
def lowerStr (s : String) : String :=
  String.mk (s.toList.map Char.toLower)

/-- Helper for `pySplitSlash`: accumulates the current component
(reversed). -/
def splitSlashAux : List Char → List Char → List String
  | [], cur => [String.mk cur.reverse]
  | c :: rest, cur =>
      if c == ('/') then String.mk cur.reverse :: splitSlashAux rest []
      else splitSlashAux rest (c :: cur)

/-- Splitting a path string at every `/` (as `s.split("/")` would). -/
def pySplitSlash (s : String) : List String :=
  splitSlashAux s.toList []

/-- Join strings with `/` between them. -/
def joinSlash : List String → String
  | [] => ""
  | [p] => p
  | p :: rest => p ++ ("/") ++ joinSlash rest

/-- Semantics of `os.path.basename` (POSIX): the part after the last `/`. -/
def basename (s : String) : String :=
  (pySplitSlash s).getLastD ("")

/-- Semantics of `os.path.dirname` (POSIX): the part before the last `/`. -/
def dirname (s : String) : String :=
  joinSlash (pySplitSlash s).dropLast

/-- Join a root directory string with a relative path given as a list of
components (the string form of `Path(root) / rel`). -/
def joinPath (root : String) (rel : List String) : String :=
  root ++ ("/") ++ joinSlash rel

/-! Section: Background-color parsing

`parse_arguments` (png2jpg.py lines 101-112) and
`PNGtoJPEGConverter.parse_bg_color` (png2jpg_gui.py lines 221-246) each
split on commas, require exactly three fields, parse each with
`int(x.strip())`, and require every value in `[0, 255]`; a `ValueError`
anywhere rejects the string. -/

/-- The CLI background parser from `parse_arguments`:
`bg_parts = args.background.split(",")`, arity check, `int(x.strip())`,
range check `0 <= val <= 255`. `none` means `parser.error` is reached. -/
def cli_parse_background (s : String) : Option (Int × Int × Int) :=
  match pySplitComma s with
  | [a, b, c] =>
      match pyInt (pyStrip a), pyInt (pyStrip b), pyInt (pyStrip c) with
      | some x, some y, some z =>
          if 0 ≤ x ∧ x ≤ 255 ∧ 0 ≤ y ∧ y ≤ 255 ∧ 0 ≤ z ∧ z ≤ 255 then some (x, y, z)
          else none
      | _, _, _ => none
  | _ => none

/-- The GUI custom-color parser `parse_bg_color`: `color_str.split(",")`,
arity check, `int(x.strip())`, range check `0 <= val <= 255`. The GUI
method re-wraps the `ValueError` message text but rejects exactly when
the parse fails. `none` means `ValueError` propagates. -/
def parse_bg_color (s : String) : Option (Int × Int × Int) :=
  match pySplitComma s with
  | [a, b, c] =>
      match pyInt (pyStrip a), pyInt (pyStrip b), pyInt (pyStrip c) with
      | some x, some y, some z =>
          if 0 ≤ x ∧ x ≤ 255 ∧ 0 ≤ y ∧ y ≤ 255 ∧ 0 ≤ z ∧ z ≤ 255 then some (x, y, z)
          else none
      | _, _, _ => none
  | _ => none

/-! Section: CLI argument validation (`parse_arguments`, png2jpg.py lines 91-114) -/

/-- Raw CLI arguments as delivered by `argparse` (quality already an
integer via `type=int`). -/
structure CliArgs where
  input : String
  output : String
  quality : Int
  recursive : Bool
  background : String

/-- Arguments after validation, with the background parsed to a triple. -/
structure ValidatedArgs where
  input : String
  output : String
  quality : Int
  recursive : Bool
  bgColor : Int × Int × Int

/-- Validation performed by `parse_arguments`: input directory must exist
(`os.path.isdir`, supplied as `inputIsDir`), quality must satisfy
`1 <= quality <= 100`, and the background string must parse; any failure
calls `parser.error`, which exits before any conversion (`none`). -/
def parse_arguments_check (inputIsDir : Bool) (a : CliArgs) : Option ValidatedArgs :=
  if inputIsDir = false then none
  else if ¬(1 ≤ a.quality ∧ a.quality ≤ 100) then none
  else
    match cli_parse_background a.background with
    | some bg => some ⟨a.input, a.output, a.quality, a.recursive, bg⟩
    | none => none

/-! Section: PIL image model

The conversion body (png2jpg.py lines 142-159 and, identically, lines
272-289) inspects `img.mode` and uses `Image.new('RGB', size, bg)`,
`convert('RGBA')`, `split()[-1]` and `paste(img, mask=alpha)`. Pixels
are modelled per channel as naturals (`0..255`); a pixel function maps
coordinates to channel values. PIL's `paste` with an 8-bit mask blends
with the fixed-point formula `MULDIV255(in1, 255-mask) +
MULDIV255(in2, mask)` where `MULDIV255(a, b) = ((t >> 8) + t) >> 8`,
`t = a*b + 128`. -/

/-- An RGB pixel (channel values 0..255). -/
structure RGBc where
  r : Nat
  g : Nat
  b : Nat
deriving DecidableEq

/-- An RGBA pixel (channel values 0..255, `a` is opacity). -/
structure RGBAc where
  r : Nat
  g : Nat
  b : Nat
  a : Nat
deriving DecidableEq

/-- A decoded PIL image, by mode. `pmode` carries the pixel indices and
the RGBA palette used by `convert('RGBA')`; `otherMode` stands for any
mode outside `{RGBA, LA, P, RGB}` and carries the pixel data of its
`convert('RGB')` result. -/
inductive PILImage where
  | rgb (w h : Nat) (px : Nat → Nat → RGBc)
  | rgba (w h : Nat) (px : Nat → Nat → RGBAc)
  | la (w h : Nat) (px : Nat → Nat → Nat × Nat)
  | pmode (w h : Nat) (idx : Nat → Nat → Nat) (pal : Nat → RGBAc)
  | otherMode (w h : Nat) (toRGB : Nat → Nat → RGBc)

/-- Pixel dimensions (`img.size`). -/
def PILImage.size : PILImage → Nat × Nat
  | .rgb w h _ => (w, h)
  | .rgba w h _ => (w, h)
  | .la w h _ => (w, h)
  | .pmode w h _ _ => (w, h)
  | .otherMode w h _ => (w, h)

/-- PIL's fixed-point `MULDIV255` macro: `t = a*b + 128;
((t >> 8) + t) >> 8`. -/
def muldiv255 (a b : Nat) : Nat :=
  ((a * b + 128) / 256 + (a * b + 128)) / 256

/-- PIL's per-channel `BLEND` for `paste` with an 8-bit mask: keep `in1`
where the mask is 0, take `in2` where it is 255, mix in between. -/
def blend (mask in1 in2 : Nat) : Nat :=
  muldiv255 in1 (255 - mask) + muldiv255 in2 mask

/-- Semantics of `background.paste(img, mask=img.split()[-1])` for an RGBA source
pasted onto an RGB canvas: per-pixel, per-channel blend by the source's
alpha channel. -/
def pasteRGBA (bg : RGBc) (px : Nat → Nat → RGBAc) : Nat → Nat → RGBc :=
  fun x y =>
    let p := px x y
    ⟨blend p.a bg.r p.r, blend p.a bg.g p.g, blend p.a bg.b p.b⟩

/-- The same paste for an LA source: pasting onto an RGB canvas first
converts the source to RGB (`(l, l, l)`), then blends by its alpha
band. -/
def pasteLA (bg : RGBc) (px : Nat → Nat → Nat × Nat) : Nat → Nat → RGBc :=
  fun x y =>
    let p := px x y
    ⟨blend p.2 bg.r p.1, blend p.2 bg.g p.1, blend p.2 bg.b p.1⟩

/-- Semantics of `img.convert("RGBA")` on a palette image: look each index up in the
RGBA palette. -/
def convertPtoRGBA (idx : Nat → Nat → Nat) (pal : Nat → RGBAc) : Nat → Nat → RGBAc :=
  fun x y => pal (idx x y)

/-- The image transformation of `convert_image` /
`convert_image_with_callback` (png2jpg.py lines 146-159 = 276-289): for
modes RGBA, LA, P create an RGB canvas of the same size filled with
`bg_color`, composite the source onto it masked by its alpha channel
(P is first converted to RGBA); any other non-RGB mode is converted to
RGB; RGB passes through. -/
def convert_image_transform (img : PILImage) (bg : RGBc) : PILImage :=
  match img with
  | .rgba w h px => .rgb w h (pasteRGBA bg px)
  | .la w h px => .rgb w h (pasteLA bg px)
  | .pmode w h idx pal => .rgb w h (pasteRGBA bg (convertPtoRGBA idx pal))
  | .rgb w h px => .rgb w h px
  | .otherMode w h toRGB => .rgb w h toRGB

/-- The source pixel's opacity at a coordinate, for the modes that carry
an alpha channel (P via its palette); `none` for alpha-free modes. -/
def alphaAt (img : PILImage) (x y : Nat) : Option Nat :=
  match img with
  | .rgba _ _ px => some (px x y).a
  | .la _ _ px => some (px x y).2
  | .pmode _ _ idx pal => some (pal (idx x y)).a
  | _ => none

/-- The RGB pixel of a converted (mode-RGB) image; `none` otherwise. -/
def pixelAt (img : PILImage) (x y : Nat) : Option RGBc :=
  match img with
  | .rgb _ _ px => some (px x y)
  | _ => none

/-! Section: Converter effect model

The single-file converters (`convert_image`, png2jpg.py lines 117-170,
and `convert_image_with_callback`, lines 250-304) run: decode →
transparency recompose → `os.makedirs(dirname(output))` → `img.save`.
Every step can raise; one `except` catches everything, reports a
message and returns `False`. The external world (what the decode
returns and which step, if any, fails) is an explicit environment. -/

/-- Where a human-readable message is delivered. -/
inductive Dest where
  | toStdout
  | toStderr
  | toCallback
deriving DecidableEq

/-- Observable events of a run, one constructor per emission site of the
source: the walker's non-PNG warning (lines 222-226, callback flag
`False`), its per-file progress line (lines 235-239, flag `False`), a
converter error line (line 169 resp. 299-303, flag `True`), a converter
invocation, and the filesystem effects (directory creation, file
write). A write carries the quality and the transformed image handed to
the JPEG encoder. -/
inductive Ev where
  | warnMsg (d : Dest) (text : String)
  | progressMsg (d : Dest) (text : String)
  | errorMsg (d : Dest) (text : String)
  | invoke (inp outF : String)
  | mkdirFx (dir : String)
  | writeFx (path : String) (quality : Int) (img : PILImage)

/-- Is this event a file write? -/
def Ev.isWriteFx : Ev → Bool
  | .writeFx _ _ _ => true
  | _ => false

/-- Is this event a filesystem effect? -/
def Ev.isFsFx : Ev → Bool
  | .mkdirFx _ => true
  | .writeFx _ _ _ => true
  | _ => false

/-- The content of an error-line event, if it is one. -/
def Ev.errorOf : Ev → Option (Dest × String)
  | .errorMsg d t => some (d, t)
  | _ => none

/-- The content of a warning event, if it is one. -/
def Ev.warnOf : Ev → Option (Dest × String)
  | .warnMsg d t => some (d, t)
  | _ => none

/-- The invocation pair of an event, if it is one. -/
def Ev.invokeOf : Ev → Option (String × String)
  | .invoke i o => some (i, o)
  | _ => none

/-- The `is_error` flag the walker's sink receives for this event's
message: `progress_callback(msg, False)` for warnings and progress
lines, `progress_callback(error_msg, True)` for converter errors. -/
def Ev.sinkFlag : Ev → Option Bool
  | .warnMsg _ _ => some false
  | .progressMsg _ _ => some false
  | .errorMsg _ _ => some true
  | _ => none

/-- Which step of a conversion fails, with the exception's message. -/
inductive ConvOutcome where
  | ok
  | decodeFail (msg : String)
  | recomposeFail (msg : String)
  | mkdirFail (msg : String)
  | saveFail (msg : String)

/-- The exception message of a failing outcome. -/
def ConvOutcome.failMsg : ConvOutcome → Option String
  | .ok => none
  | .decodeFail m => some m
  | .recomposeFail m => some m
  | .mkdirFail m => some m
  | .saveFail m => some m

/-- Does the outcome describe a fully successful conversion? -/
def ConvOutcome.isOk : ConvOutcome → Bool
  | .ok => true
  | _ => false

/-- The external environment of one conversion: what `Image.open`
decodes, and which step (if any) raises. -/
structure ConvEnv where
  decoded : PILImage
  outcome : ConvOutcome

/-- The error line of `convert_image` (line 169):
`f"Error converting {input_path}: {e}"`. -/
def cliErrorLine (input msg : String) : String :=
  "Error converting " ++ input ++ (": ") ++ msg

/-- The error line of `convert_image_with_callback` (line 299):
`f"Error: {os.path.basename(input_path)} - {e}"`. -/
def cbErrorLine (input msg : String) : String :=
  "Error: " ++ basename input ++ (" - ") ++ msg

/-- Result of one converter call: the returned boolean and the events it
produced, in order. -/
structure ConvRun where
  result : Bool
  events : List Ev

/-- Model of `convert_image`: on success, creates the output's parent directory
and writes the encoded transform; on any failure, prints one error line
to stderr and returns `False`. A failure before `save` reaches no
write; a failing `save` has already created the directory. -/
def convert_image (env : ConvEnv) (input output : String) (quality : Int) (bg : RGBc) : ConvRun :=
  match env.outcome with
  | .ok =>
      ⟨true, [.mkdirFx (dirname output),
              .writeFx output quality (convert_image_transform env.decoded bg)]⟩
  | .decodeFail m => ⟨false, [.errorMsg .toStderr (cliErrorLine input m)]⟩
  | .recomposeFail m => ⟨false, [.errorMsg .toStderr (cliErrorLine input m)]⟩
  | .mkdirFail m => ⟨false, [.errorMsg .toStderr (cliErrorLine input m)]⟩
  | .saveFail m =>
      ⟨false, [.mkdirFx (dirname output), .errorMsg .toStderr (cliErrorLine input m)]⟩

/-- Error destination of `convert_image_with_callback`: the progress
callback when one is given, stderr otherwise (lines 300-303). -/
def errDest (hasCb : Bool) : Dest :=
  if hasCb then .toCallback else .toStderr

/-- Model of `convert_image_with_callback`: identical conversion pipeline to
`convert_image`; only the error reporting differs (message format of
line 299, delivered via the callback when given). -/
def convert_image_with_callback (env : ConvEnv) (input output : String) (quality : Int)
    (bg : RGBc) (hasCb : Bool) : ConvRun :=
  match env.outcome with
  | .ok =>
      ⟨true, [.mkdirFx (dirname output),
              .writeFx output quality (convert_image_transform env.decoded bg)]⟩
  | .decodeFail m => ⟨false, [.errorMsg (errDest hasCb) (cbErrorLine input m)]⟩
  | .recomposeFail m => ⟨false, [.errorMsg (errDest hasCb) (cbErrorLine input m)]⟩
  | .mkdirFail m => ⟨false, [.errorMsg (errDest hasCb) (cbErrorLine input m)]⟩
  | .saveFail m =>
      ⟨false, [.mkdirFx (dirname output), .errorMsg (errDest hasCb) (cbErrorLine input m)]⟩

/-! Section: Batch walker (`process_directory`, png2jpg.py lines 173-247) -/

/-- One filesystem entry under the input root, as the `glob`/`rglob`
enumeration yields it: its path relative to the input root (nonempty
component list), whether it is a directory, and — for files handed to
the converter — the conversion environment of that file. -/
structure FSEntry where
  relPath : List String
  isDir : Bool
  env : ConvEnv

/-- Value of `file_path.name`: the last path component. -/
def entryName (e : FSEntry) : String :=
  e.relPath.getLastD ("")

/-- The files `process_directory` iterates over:
`input_path.rglob("*")` yields every entry at any depth, while
`input_path.glob("*")` yields only direct children (depth 1). The
parameter `entries` is the full recursive enumeration. -/
def enumerate (entries : List FSEntry) (recursive : Bool) : List FSEntry :=
  if recursive then entries else entries.filter (fun e => e.relPath.length == 1)

/-- The walker's PNG test (line 221): `file_path.suffix.lower() == ".png"`
on a non-directory. -/
def isPngEntry (e : FSEntry) : Bool :=
  !e.isDir && lowerStr (pySuffix (entryName e)) == ".png"

/-- Value of `relative_path.with_suffix(".jpg")`: same components, the file name's
extension replaced. -/
def relJpg (rel : List String) : List String :=
  rel.dropLast ++ [pyWithSuffix (rel.getLastD ("")) (".jpg")]

/-- The warning for a non-PNG file (line 222). -/
def warnLine (p : String) : String :=
  "Warning: Skipping non-PNG file: " ++ p

/-- The per-file progress line (line 235). -/
def progressLine (n o : String) : String :=
  "Converting: " ++ n ++ (" -> ") ++ o

/-- Destination of the walker's own warnings and progress lines: the
callback when one is given, `print` (stdout) otherwise (lines 223-226,
236-239). -/
def walkDest (hasCb : Bool) : Dest :=
  if hasCb then .toCallback else .toStdout

/-- The parameters of one batch run. -/
structure WalkCfg where
  inputRoot : String
  outputRoot : String
  quality : Int
  bg : RGBc
  hasCb : Bool

/-- Accumulated state of the walker loop: the two counters and the event
trace so far. -/
structure WalkAcc where
  converted : Nat
  skipped : Nat
  trace : List Ev

/-- One iteration of the loop of lines 215-245: skip directories
uncounted; warn and count non-PNG files as skipped; otherwise emit the
progress line, invoke `convert_image_with_callback` on the mirrored
output path, and count the result. -/
def stepEntry (cfg : WalkCfg) (acc : WalkAcc) (e : FSEntry) : WalkAcc :=
  if e.isDir then acc
  else if !(lowerStr (pySuffix (entryName e)) == ".png") then
    { converted := acc.converted, skipped := acc.skipped + 1,
      trace := acc.trace ++ [.warnMsg (walkDest cfg.hasCb) (warnLine (joinPath cfg.inputRoot e.relPath))] }
  else
    let inp := joinPath cfg.inputRoot e.relPath
    let outF := joinPath cfg.outputRoot (relJpg e.relPath)
    let run := convert_image_with_callback e.env inp outF cfg.quality cfg.bg cfg.hasCb
    let tr := acc.trace
      ++ [.progressMsg (walkDest cfg.hasCb) (progressLine (entryName e) (pyWithSuffix (entryName e) (".jpg"))),
          .invoke inp outF]
      ++ run.events
    if run.result then
      { converted := acc.converted + 1, skipped := acc.skipped, trace := tr }
    else
      { converted := acc.converted, skipped := acc.skipped + 1, trace := tr }

/-- The walker loop over a list of entries. -/
def processList (cfg : WalkCfg) : List FSEntry → WalkAcc → WalkAcc
  | [], acc => acc
  | e :: rest, acc => processList cfg rest (stepEntry cfg acc e)

/-- Model of `process_directory`: enumerate (recursively or not), run the loop,
return the counters (and, in the model, the event trace). -/
def process_directory (cfg : WalkCfg) (entries : List FSEntry) (recursive : Bool) : WalkAcc :=
  processList cfg (enumerate entries recursive) ⟨0, 0, []⟩

/-! Section: CLI main (`main`, png2jpg.py lines 326-357) -/

/-- The exit code computed at line 357:
`0 if converted > 0 or skipped == 0 else 1`. -/
def main_exit (converted skipped : Nat) : Nat :=
  if 0 < converted ∨ skipped = 0 then 0 else 1

/-- Model of `main`: validate the arguments (aborting with no conversion on
failure), run `process_directory` without a callback, return the exit
code. `none` models the `parser.error` exit path, where no file is
processed. -/
def cli_main (inputIsDir : Bool) (a : CliArgs) (entries : List FSEntry) : Option (WalkAcc × Nat) :=
  match parse_arguments_check inputIsDir a with
  | none => none
  | some v =>
      let bg : RGBc := ⟨v.bgColor.1.toNat, v.bgColor.2.1.toNat, v.bgColor.2.2.toNat⟩
      let r := process_directory ⟨v.input, v.output, v.quality, bg, false⟩ entries v.recursive
      some (r, main_exit r.converted r.skipped)

/-! Section: GUI worker thread model (`png2jpg_gui.py`)

`start_conversion` spawns `run_conversion` on a background thread.
Every tkinter widget mutation happening inside that thread is either a
direct call (`log_message` touches `self.status_text` on the calling
thread) or a dispatch (`self.root.after(0, f)` queues `f` onto the Tk
event loop, which runs on the UI thread). -/

/-- A UI-affecting action taken while `run_conversion` executes on the
worker thread. -/
inductive UIAction where
  | direct (op : String)
  | afterDispatch (op : String)

/-- Is the action a direct widget mutation on the calling thread? -/
def UIAction.isDirect : UIAction → Bool
  | .direct _ => true
  | .afterDispatch _ => false

/-- Model of `progress_callback` (gui lines 313-321): marshals each message onto
the UI thread with `self.root.after(0, ...)`. -/
def progress_callback (msg : String) : UIAction :=
  .afterDispatch ("log_message " ++ msg)

/-- The 40-dash separator of gui line 290/303. -/
def dashes40 : String :=
  String.mk (List.replicate 40 ('-'))

/-- The UI-affecting actions of `run_conversion` (gui lines 276-311), in
order: six direct `log_message` calls for the header, one dispatched
action per progress-callback message from `process_directory`, two more
direct `log_message` calls for the separator and the completion line,
and finally the dispatched `conversion_complete`. -/
def run_conversion (inputDir outputDir : String) (quality : Int) (recursive : Bool)
    (bg : Int × Int × Int) (progressMsgs : List String) (converted skipped : Nat) :
    List UIAction :=
  [.direct ("log_message Input: " ++ inputDir),
   .direct ("log_message Output: " ++ outputDir),
   .direct ("log_message Quality: " ++ toString quality),
   .direct ("log_message Recursive: " ++ (if recursive then "True" else "False")),
   .direct ("log_message Background: RGB" ++ toString bg),
   .direct ("log_message " ++ dashes40)]
  ++ progressMsgs.map progress_callback
  ++ [.direct ("log_message " ++ dashes40),
      .direct ("log_message Complete! Converted " ++ toString converted
        ++ (" files. ") ++ toString skipped ++ (" skipped.")),
      .afterDispatch ("conversion_complete")]

/-! Section: derived per-entry quantities and trace observations -/

/-- Contribution of one enumerated entry to `converted_count`: one for a
PNG file whose conversion succeeds. -/
def entryConvDelta (e : FSEntry) : Nat :=
  if isPngEntry e && e.env.outcome.isOk then 1 else 0

/-- Contribution of one enumerated entry to `skipped_count`: one for any
non-directory that is not a successfully converted PNG. -/
def entrySkipDelta (e : FSEntry) : Nat :=
  if !e.isDir && !(isPngEntry e && e.env.outcome.isOk) then 1 else 0

/-- The events one entry contributes to the trace (the appends performed
by `stepEntry` for that entry). -/
def entryEvents (cfg : WalkCfg) (e : FSEntry) : List Ev :=
  if e.isDir then []
  else if !(lowerStr (pySuffix (entryName e)) == ".png") then
    [.warnMsg (walkDest cfg.hasCb) (warnLine (joinPath cfg.inputRoot e.relPath))]
  else
    [.progressMsg (walkDest cfg.hasCb) (progressLine (entryName e) (pyWithSuffix (entryName e) (".jpg"))),
     .invoke (joinPath cfg.inputRoot e.relPath) (joinPath cfg.outputRoot (relJpg e.relPath))]
    ++ (convert_image_with_callback e.env (joinPath cfg.inputRoot e.relPath)
          (joinPath cfg.outputRoot (relJpg e.relPath)) cfg.quality cfg.bg cfg.hasCb).events

/-- All converter invocations recorded in a trace, in order. -/
def invokesOf (tr : List Ev) : List (String × String) :=
  tr.filterMap Ev.invokeOf

/-- All error lines recorded in a trace (destination and text), in
order. -/
def errorLinesOf (tr : List Ev) : List (Dest × String) :=
  tr.filterMap Ev.errorOf

/-- All non-PNG warnings recorded in a trace (destination and text), in
order. -/
def warnLinesOf (tr : List Ev) : List (Dest × String) :=
  tr.filterMap Ev.warnOf

/-! Section: concrete fixtures used by witnesses and counterexamples -/

/-- A minimal decoded image. -/
def imgFix : PILImage :=
  .rgb 1 1 (fun _ _ => ⟨0, 0, 0⟩)

/-- An environment in which every conversion step succeeds. -/
def envOkFix : ConvEnv :=
  ⟨imgFix, .ok⟩

/-- An environment in which `Image.open` raises with message `boom`. -/
def envFailFix : ConvEnv :=
  ⟨imgFix, .decodeFail ("boom")⟩

/-- White background. -/
def whiteBg : RGBc :=
  ⟨255, 255, 255⟩

/-- A PNG entry in a subdirectory whose conversion fails. -/
def entryFailFix : FSEntry :=
  ⟨["sub", "a.png"], false, envFailFix⟩

/-- A walk configuration over roots `in` and `out`, no callback. -/
def cfgFix : WalkCfg :=
  ⟨"in", "out", 90, whiteBg, false⟩

/-- A 1-by-1 RGBA image whose single pixel is fully transparent. -/
def transparentImgFix : PILImage :=
  .rgba 1 1 (fun _ _ => ⟨10, 20, 30, 0⟩)

/-! Section: helper lemmas about the PIL blend arithmetic -/

theorem muldiv255_zero (a : Nat) : muldiv255 a 0 = 0 := by
  simp [muldiv255]

theorem muldiv255_full (a : Nat) (h : a ≤ 255) : muldiv255 a 255 = a := by
  unfold muldiv255
  omega

theorem blend_zero (u v : Nat) (h : u ≤ 255) : blend 0 u v = u := by
  simp [blend, muldiv255_zero, muldiv255_full u h]

/-- C1: in the conversion of an image with an alpha channel (RGBA, LA,
or palette-indexed), the result is an RGB image of the same pixel
dimensions, and every pixel whose source opacity is 0 (fully
transparent) equals the chosen background color exactly. -/
theorem C1_transparent_pixel_is_background (img : PILImage) (bg : RGBc) (x y : Nat)
    (hr : bg.r ≤ 255) (hg : bg.g ≤ 255) (hb : bg.b ≤ 255)
    (ha : alphaAt img x y = some 0) :
    (convert_image_transform img bg).size = img.size ∧
    pixelAt (convert_image_transform img bg) x y = some bg := by
  cases img with
  | rgba w h px =>
      simp only [alphaAt, Option.some.injEq] at ha
      refine ⟨rfl, ?_⟩
      simp [convert_image_transform, pixelAt, pasteRGBA, ha, blend_zero, hr, hg, hb]
  | la w h px =>
      simp only [alphaAt, Option.some.injEq] at ha
      refine ⟨rfl, ?_⟩
      simp [convert_image_transform, pixelAt, pasteLA, ha, blend_zero, hr, hg, hb]
  | pmode w h idx pal =>
      simp only [alphaAt, Option.some.injEq] at ha
      refine ⟨rfl, ?_⟩
      simp [convert_image_transform, pixelAt, pasteRGBA, convertPtoRGBA, ha,
            blend_zero, hr, hg, hb]
  | rgb w h px => simp [alphaAt] at ha
  | otherMode w h px => simp [alphaAt] at ha

/-- Witness for C1 at a concrete fully transparent 1-by-1 RGBA image and
background (7, 8, 9). -/
theorem C1_transparent_pixel_is_background_witness :
    (convert_image_transform transparentImgFix ⟨7, 8, 9⟩).size = transparentImgFix.size ∧
    pixelAt (convert_image_transform transparentImgFix ⟨7, 8, 9⟩) 0 0 = some ⟨7, 8, 9⟩ :=
  C1_transparent_pixel_is_background transparentImgFix ⟨7, 8, 9⟩ 0 0
    (by decide) (by decide) (by decide) rfl

/-- C8: the CLI background-color parser and the GUI custom-color parser
accept exactly the same strings and produce the same triple. -/
theorem C8_cli_gui_bg_parsers_agree (s : String) :
    cli_parse_background s = parse_bg_color s :=
  rfl

/-- C5: for every completed run, the exit code of `main` is 0 exactly
when at least one file was converted or nothing was skipped, and 1
exactly when something was skipped and nothing was converted. -/
theorem C5_exit_code (cfg : WalkCfg) (entries : List FSEntry) (recursive : Bool) :
    (main_exit (process_directory cfg entries recursive).converted
        (process_directory cfg entries recursive).skipped = 0 ↔
      0 < (process_directory cfg entries recursive).converted ∨
        (process_directory cfg entries recursive).skipped = 0)
    ∧ (main_exit (process_directory cfg entries recursive).converted
        (process_directory cfg entries recursive).skipped = 1 ↔
      0 < (process_directory cfg entries recursive).skipped ∧
        (process_directory cfg entries recursive).converted = 0) := by
  generalize (process_directory cfg entries recursive).converted = c
  generalize (process_directory cfg entries recursive).skipped = s
  unfold main_exit
  by_cases h : 0 < c ∨ s = 0
  · simp only [if_pos h]
    constructor
    · simp [h]
    · constructor
      · intro h1; omega
      · intro h1; omega
  · simp only [if_neg h]
    constructor
    · constructor
      · intro h1; omega
      · intro h1; exact absurd h1 h
    · constructor
      · intro _; omega
      · intro _; trivial

/-- C7: a run of the single-file converter writes exactly the one output
file when it returns success, and writes no file when it returns
failure (any error in decode, recompose, directory creation, or
encode). -/
theorem C7_write_effects (env : ConvEnv) (i o : String) (q : Int) (bg : RGBc) (cb : Bool) :
    ((convert_image_with_callback env i o q bg cb).result = true →
      (convert_image_with_callback env i o q bg cb).events.filter Ev.isWriteFx
        = [Ev.writeFx o q (convert_image_transform env.decoded bg)])
    ∧ ((convert_image_with_callback env i o q bg cb).result = false →
      (convert_image_with_callback env i o q bg cb).events.filter Ev.isWriteFx = []) := by
  rcases env with ⟨dec, out⟩
  cases out <;> constructor <;> intro h <;> simp_all [convert_image_with_callback, Ev.isWriteFx]

/-- Witness for C7: both branches at concrete environments. -/
theorem C7_write_effects_witness :
    (convert_image_with_callback envOkFix ("in/a.png") ("out/a.jpg") 85 whiteBg false).events.filter
        Ev.isWriteFx
      = [Ev.writeFx ("out/a.jpg") 85 (convert_image_transform envOkFix.decoded whiteBg)]
    ∧ (convert_image_with_callback envFailFix ("in/a.png") ("out/a.jpg") 85 whiteBg false).events.filter
        Ev.isWriteFx = [] :=
  ⟨(C7_write_effects envOkFix ("in/a.png") ("out/a.jpg") 85 whiteBg false).1 rfl,
   (C7_write_effects envFailFix ("in/a.png") ("out/a.jpg") 85 whiteBg false).2 rfl⟩

/-- C10 (amended): for identical inputs, `convert_image` and
`convert_image_with_callback` return the same boolean, perform the same
filesystem effects (the same transformed image written to the same
path), and each emits its error line exactly on failure — but the error
reporting differs in both destination and text: `convert_image` writes
`Error converting <path>: <message>` to stderr, while
`convert_image_with_callback` delivers `Error: <basename> - <message>`
to the callback when given, else stderr. -/
theorem C10_converters_agree (env : ConvEnv) (i o : String) (q : Int) (bg : RGBc) (cb : Bool) :
    (convert_image env i o q bg).result = (convert_image_with_callback env i o q bg cb).result
    ∧ (convert_image env i o q bg).events.filter Ev.isFsFx
        = (convert_image_with_callback env i o q bg cb).events.filter Ev.isFsFx
    ∧ (convert_image env i o q bg).events.filterMap Ev.errorOf
        = (env.outcome.failMsg.map (fun m => (Dest.toStderr, cliErrorLine i m))).toList
    ∧ (convert_image_with_callback env i o q bg cb).events.filterMap Ev.errorOf
        = (env.outcome.failMsg.map (fun m => (errDest cb, cbErrorLine i m))).toList := by
  rcases env with ⟨dec, out⟩
  cases out <;> exact ⟨rfl, rfl, rfl, rfl⟩

/-- Counterexample to C10 as stated: on the same failing input, with no
callback, both converters deliver their error line to stderr — the same
place — yet the two lines differ, so the functions do not differ only
in where the message is delivered. -/
theorem C10_message_format_counterexample :
    (convert_image envFailFix ("in/sub/a.png") ("out/sub/a.jpg") 85 whiteBg).events.filterMap
        Ev.errorOf = [(Dest.toStderr, ("Error converting in/sub/a.png: boom"))]
    ∧ (convert_image_with_callback envFailFix ("in/sub/a.png") ("out/sub/a.jpg") 85 whiteBg
        false).events.filterMap Ev.errorOf = [(Dest.toStderr, ("Error: a.png - boom"))]
    ∧ ("Error converting in/sub/a.png: boom" : String) ≠ ("Error: a.png - boom") := by
  refine ⟨by decide, by decide, by decide⟩

/-- C9: evidence that the GUI worker thread mutates UI widgets directly.
In one `run_conversion` execution on the background thread (modelled
with no progress messages, one converted file), eight `log_message`
calls mutate the status widget directly from the worker thread and only
one action (the completion reset) is marshalled via `root.after`;
`progress_callback` itself is marshalled. The claim that every message
is dispatched to the UI thread is violated by the eight direct calls. -/
theorem C9_worker_mutates_ui_directly :
    ((run_conversion ("in") ("out") 85 false (255, 255, 255) [] 1 0).filter
        UIAction.isDirect).length = 8
    ∧ ((run_conversion ("in") ("out") 85 false (255, 255, 255) [] 1 0).filter
        (fun a => !a.isDirect)).length = 1
    ∧ (progress_callback ("some message")).isDirect = false := by
  refine ⟨rfl, rfl, rfl⟩

/-! Section: helper lemmas about the walker loop -/

theorem convert_cb_result (env : ConvEnv) (i o : String) (q : Int) (bg : RGBc) (cb : Bool) :
    (convert_image_with_callback env i o q bg cb).result = env.outcome.isOk := by
  rcases env with ⟨dec, out⟩
  cases out <;> rfl

theorem stepEntry_eq (cfg : WalkCfg) (acc : WalkAcc) (e : FSEntry) :
    stepEntry cfg acc e =
      ⟨acc.converted + entryConvDelta e, acc.skipped + entrySkipDelta e,
       acc.trace ++ entryEvents cfg e⟩ := by
  rcases e with ⟨rel, isD, env⟩
  cases isD with
  | true => simp [stepEntry, entryConvDelta, entrySkipDelta, entryEvents, isPngEntry]
  | false =>
      cases hs : lowerStr (pySuffix (entryName ⟨rel, false, env⟩)) == ".png" with
      | false =>
          simp [stepEntry, entryConvDelta, entrySkipDelta, entryEvents, isPngEntry, hs]
      | true =>
          cases hok : env.outcome.isOk with
          | true =>
              simp [stepEntry, entryConvDelta, entrySkipDelta, entryEvents, isPngEntry, hs,
                    convert_cb_result, hok]
          | false =>
              simp [stepEntry, entryConvDelta, entrySkipDelta, entryEvents, isPngEntry, hs,
                    convert_cb_result, hok]

theorem processList_eq (cfg : WalkCfg) (l : List FSEntry) (acc : WalkAcc) :
    processList cfg l acc =
      ⟨acc.converted + (l.map entryConvDelta).sum,
       acc.skipped + (l.map entrySkipDelta).sum,
       acc.trace ++ (l.map (entryEvents cfg)).join⟩ := by
  induction l generalizing acc with
  | nil => simp [processList]
  | cons e rest ih =>
      rw [processList, ih, stepEntry_eq]
      simp [Nat.add_assoc, List.append_assoc]

theorem entryDelta_total (e : FSEntry) :
    entryConvDelta e + entrySkipDelta e = if !e.isDir then 1 else 0 := by
  unfold entryConvDelta entrySkipDelta
  cases hd : e.isDir with
  | true => simp [isPngEntry, hd]
  | false => cases hok : (isPngEntry e && e.env.outcome.isOk) <;> simp [hd, hok]

theorem sum_entryConvDelta (l : List FSEntry) :
    (l.map entryConvDelta).sum
      = (l.filter (fun e => isPngEntry e && e.env.outcome.isOk)).length := by
  induction l with
  | nil => rfl
  | cons e t ih =>
      cases hp : isPngEntry e <;> cases ho : e.env.outcome.isOk <;>
        simp [entryConvDelta, List.filter_cons, hp, ho, ih] <;> omega

theorem sum_entrySkipDelta (l : List FSEntry) :
    (l.map entrySkipDelta).sum
      = (l.filter (fun e => !e.isDir && !(isPngEntry e && e.env.outcome.isOk))).length := by
  induction l with
  | nil => rfl
  | cons e t ih =>
      cases hd : e.isDir <;> cases hp : isPngEntry e <;> cases ho : e.env.outcome.isOk <;>
        simp [entrySkipDelta, List.filter_cons, hd, hp, ho, ih] <;> omega

theorem sum_nonDir (l : List FSEntry) :
    (l.map entryConvDelta).sum + (l.map entrySkipDelta).sum
      = (l.filter (fun e => !e.isDir)).length := by
  induction l with
  | nil => rfl
  | cons e t ih =>
      cases hd : e.isDir with
      | true =>
          have hp : isPngEntry e = false := by simp [isPngEntry, hd]
          simp [entryConvDelta, entrySkipDelta, List.filter_cons, hd, hp, ih]
      | false =>
          cases hp : isPngEntry e <;> cases ho : e.env.outcome.isOk <;>
            simp [entryConvDelta, entrySkipDelta, List.filter_cons, hd, hp, ho, ih] <;> omega

theorem trace_extract {β : Type} (cfg : WalkCfg) (f : Ev → Option β) (p : FSEntry → Bool)
    (g : FSEntry → β)
    (hf : ∀ e, (entryEvents cfg e).filterMap f = if p e then [g e] else [])
    (l : List FSEntry) :
    ((l.map (entryEvents cfg)).join).filterMap f = (l.filter p).map g := by
  induction l with
  | nil => rfl
  | cons e t ih =>
      by_cases h : p e <;> simp [hf e, h, ih, List.filter_cons]

theorem entryEvents_invokeOf (cfg : WalkCfg) (e : FSEntry) :
    (entryEvents cfg e).filterMap Ev.invokeOf =
      if isPngEntry e then
        [(joinPath cfg.inputRoot e.relPath, joinPath cfg.outputRoot (relJpg e.relPath))]
      else [] := by
  rcases e with ⟨rel, isD, env⟩
  cases isD with
  | true => simp [entryEvents, isPngEntry]
  | false =>
      cases hs : lowerStr (pySuffix (entryName ⟨rel, false, env⟩)) == ".png" with
      | false => simp [entryEvents, isPngEntry, hs, Ev.invokeOf]
      | true =>
          rcases env with ⟨dec, out⟩
          cases out <;>
            simp [entryEvents, isPngEntry, hs, Ev.invokeOf, convert_image_with_callback]

theorem entryEvents_warnOf (cfg : WalkCfg) (e : FSEntry) :
    (entryEvents cfg e).filterMap Ev.warnOf =
      if !e.isDir && !(isPngEntry e) then
        [(walkDest cfg.hasCb, warnLine (joinPath cfg.inputRoot e.relPath))]
      else [] := by
  rcases e with ⟨rel, isD, env⟩
  cases isD with
  | true => simp [entryEvents, isPngEntry]
  | false =>
      cases hs : lowerStr (pySuffix (entryName ⟨rel, false, env⟩)) == ".png" with
      | false => simp [entryEvents, isPngEntry, hs, Ev.warnOf]
      | true =>
          rcases env with ⟨dec, out⟩
          cases out <;>
            simp [entryEvents, isPngEntry, hs, Ev.warnOf, convert_image_with_callback]

theorem entryEvents_errorOf (cfg : WalkCfg) (e : FSEntry) :
    (entryEvents cfg e).filterMap Ev.errorOf =
      if isPngEntry e && !e.env.outcome.isOk then
        [(errDest cfg.hasCb,
          cbErrorLine (joinPath cfg.inputRoot e.relPath) (e.env.outcome.failMsg.getD ("")))]
      else [] := by
  rcases e with ⟨rel, isD, env⟩
  cases isD with
  | true => simp [entryEvents, isPngEntry]
  | false =>
      cases hs : lowerStr (pySuffix (entryName ⟨rel, false, env⟩)) == ".png" with
      | false => simp [entryEvents, isPngEntry, hs, Ev.errorOf]
      | true =>
          rcases env with ⟨dec, out⟩
          cases out <;>
            simp [entryEvents, isPngEntry, hs, Ev.errorOf, convert_image_with_callback,
                  ConvOutcome.isOk, ConvOutcome.failMsg]

/-- C2: every enumerated entry is classified exactly once — directories
are skipped uncounted, non-PNG files are counted as skipped with one
warning emitted, PNG files are handed to the converter and counted as
converted on success and skipped on failure — and the returned pair
satisfies converted + skipped = number of non-directory entries. -/
theorem C2_walker_classification (cfg : WalkCfg) (entries : List FSEntry) (recursive : Bool) :
    (process_directory cfg entries recursive).converted
        = ((enumerate entries recursive).filter
            (fun e => isPngEntry e && e.env.outcome.isOk)).length
    ∧ (process_directory cfg entries recursive).skipped
        = ((enumerate entries recursive).filter
            (fun e => !e.isDir && !(isPngEntry e && e.env.outcome.isOk))).length
    ∧ (process_directory cfg entries recursive).converted
          + (process_directory cfg entries recursive).skipped
        = ((enumerate entries recursive).filter (fun e => !e.isDir)).length
    ∧ warnLinesOf (process_directory cfg entries recursive).trace
        = ((enumerate entries recursive).filter (fun e => !e.isDir && !(isPngEntry e))).map
            (fun e => (walkDest cfg.hasCb, warnLine (joinPath cfg.inputRoot e.relPath))) := by
  unfold process_directory warnLinesOf
  rw [processList_eq]
  refine ⟨?_, ?_, ?_, ?_⟩
  · simpa using sum_entryConvDelta (enumerate entries recursive)
  · simpa using sum_entrySkipDelta (enumerate entries recursive)
  · simpa using sum_nonDir (enumerate entries recursive)
  · simpa using trace_extract cfg Ev.warnOf (fun e => !e.isDir && !(isPngEntry e))
      (fun e => (walkDest cfg.hasCb, warnLine (joinPath cfg.inputRoot e.relPath)))
      (entryEvents_warnOf cfg) (enumerate entries recursive)

/-- C3: every converter invocation pairs the discovered file's full path
with the output root joined to the same relative path with the
extension replaced by `.jpg`; the recursive run enumerates every entry
at any depth, the non-recursive run only direct children, so nested
files are not processed at all without the flag. -/
theorem C3_output_path_mirroring (cfg : WalkCfg) (entries : List FSEntry) (recursive : Bool) :
    invokesOf (process_directory cfg entries recursive).trace
        = ((enumerate entries recursive).filter isPngEntry).map
            (fun e => (joinPath cfg.inputRoot e.relPath, joinPath cfg.outputRoot (relJpg e.relPath)))
    ∧ enumerate entries true = entries
    ∧ enumerate entries false = entries.filter (fun e => e.relPath.length == 1) := by
  refine ⟨?_, rfl, rfl⟩
  unfold process_directory invokesOf
  rw [processList_eq]
  simpa using trace_extract cfg Ev.invokeOf isPngEntry
    (fun e => (joinPath cfg.inputRoot e.relPath, joinPath cfg.outputRoot (relJpg e.relPath)))
    (entryEvents_invokeOf cfg) (enumerate entries recursive)

/-- C6 (amended): for every file whose conversion fails, exactly one
error line of the form `Error: <basename> - <message>` is emitted — to
stderr, or via the progress callback in the GUI path — the file is
counted as skipped, and the batch continues (every other enumerated
entry is still classified and counted). -/
theorem C6_per_file_error_reporting (cfg : WalkCfg) (entries : List FSEntry) (recursive : Bool) :
    errorLinesOf (process_directory cfg entries recursive).trace
        = ((enumerate entries recursive).filter
            (fun e => isPngEntry e && !e.env.outcome.isOk)).map
            (fun e => (errDest cfg.hasCb,
              cbErrorLine (joinPath cfg.inputRoot e.relPath) (e.env.outcome.failMsg.getD (""))))
    ∧ (process_directory cfg entries recursive).skipped
        = ((enumerate entries recursive).filter
            (fun e => !e.isDir && !(isPngEntry e && e.env.outcome.isOk))).length
    ∧ (process_directory cfg entries recursive).converted
        = ((enumerate entries recursive).filter
            (fun e => isPngEntry e && e.env.outcome.isOk)).length := by
  unfold process_directory errorLinesOf
  rw [processList_eq]
  refine ⟨?_, ?_, ?_⟩
  · simpa using trace_extract cfg Ev.errorOf (fun e => isPngEntry e && !e.env.outcome.isOk)
      (fun e => (errDest cfg.hasCb,
        cbErrorLine (joinPath cfg.inputRoot e.relPath) (e.env.outcome.failMsg.getD (""))))
      (entryEvents_errorOf cfg) (enumerate entries recursive)
  · simpa using sum_entrySkipDelta (enumerate entries recursive)
  · simpa using sum_entryConvDelta (enumerate entries recursive)

/-- Counterexample to C6 as stated: a failing PNG file produces the
error line `Error: a.png - boom`, which is not the claimed
`Error converting <path>: <message>` line for this path and message. -/
theorem C6_claimed_format_counterexample :
    errorLinesOf (process_directory cfgFix [entryFailFix] true).trace
        = [(Dest.toStderr, ("Error: a.png - boom"))]
    ∧ ("Error: a.png - boom" : String)
        ≠ cliErrorLine (joinPath cfgFix.inputRoot entryFailFix.relPath) ("boom")
    ∧ ("Error: a.png - boom" : String).toList.take (("Error converting").toList.length)
        ≠ ("Error converting").toList := by
  refine ⟨by decide, by decide, by decide⟩

/-- C4: validation runs before any conversion and fails fast —
validation succeeds exactly when the input directory exists, the
quality lies in [1, 100] (boundaries included), and the background
string parses; `main` attempts no conversion when validation fails; the
background string is accepted with value (x, y, z) exactly when it
splits at commas into exactly three fields whose stripped contents
parse as integers x, y, z, each within [0, 255]; in particular `0,0,0`
parses to (0, 0, 0) while `256,0,0` and the wrong-arity `1,2` are
rejected. -/
theorem C4_validation_fails_fast (d : Bool) (a : CliArgs) (entries : List FSEntry) :
    ((parse_arguments_check d a).isSome = true ↔
        d = true ∧ 1 ≤ a.quality ∧ a.quality ≤ 100
          ∧ (cli_parse_background a.background).isSome = true)
    ∧ (cli_main d a entries = none ↔ parse_arguments_check d a = none)
    ∧ cli_parse_background ("0,0,0") = some (0, 0, 0)
    ∧ cli_parse_background ("256,0,0") = none
    ∧ cli_parse_background ("1,2") = none
    ∧ (∀ s x y z, cli_parse_background s = some (x, y, z) ↔
        (∃ p q r, pySplitComma s = [p, q, r]
          ∧ pyInt (pyStrip p) = some x ∧ pyInt (pyStrip q) = some y ∧ pyInt (pyStrip r) = some z
          ∧ 0 ≤ x ∧ x ≤ 255 ∧ 0 ≤ y ∧ y ≤ 255 ∧ 0 ≤ z ∧ z ≤ 255)) := by
  refine ⟨?_, ?_, by decide, by decide, by decide, ?_⟩
  · cases d with
    | false => simp [parse_arguments_check]
    | true =>
        by_cases hq : 1 ≤ a.quality ∧ a.quality ≤ 100
        · cases hbg : cli_parse_background a.background with
          | none => simp [parse_arguments_check, hq, hbg]
          | some bg => simp [parse_arguments_check, hq, hbg]
        · simp only [parse_arguments_check]
          rw [if_neg (by simp), if_pos hq]
          simp
          tauto
  · cases hpc : parse_arguments_check d a with
    | none => simp [cli_main, hpc]
    | some v => simp [cli_main, hpc]
  · intro s x y z
    constructor
    · intro h
      unfold cli_parse_background at h
      split at h
      · split at h
        · split at h
          · simp only [Option.some.injEq, Prod.mk.injEq] at h
            obtain ⟨h1, h2, h3⟩ := h
            subst h1; subst h2; subst h3
            rename_i hcond
            exact ⟨_, _, _, by assumption, by assumption, by assumption, by assumption,
                   hcond.1, hcond.2.1, hcond.2.2.1, hcond.2.2.2.1, hcond.2.2.2.2.1,
                   hcond.2.2.2.2.2⟩
          · exact absurd h (by simp)
        · exact absurd h (by simp)
      · exact absurd h (by simp)
    · rintro ⟨p, q, r, hlist, hx, hy, hz, h1, h2, h3, h4, h5, h6⟩
      simp [cli_parse_background, hlist, hx, hy, hz, h1, h2, h3, h4, h5, h6]

end Png2Jpg
